import Mathlib

/-!
Verification of the MCP stdio client core of the `slo_agent` repository
(`src/slo_agent/mcp_client.py` and `src/slo_agent/tools.py`).

The Python code is shallowly embedded: JSON values become an inductive
`Json`; the external `json.loads` decoder is an explicit parameter
`parse : String → Option Json` (Python raises on failure, the raising
variants are modelled with `Except`); the subprocess world is a list of
running pids; stream I/O outcomes (write success, the line returned by
`readline`) are oracle fields, so one oracle value fixes one execution.
-/

set_option autoImplicit false

/-- JSON values as produced by `json.loads`: null, booleans, numbers,
strings, arrays and string-keyed objects.  Numbers are modelled as `Int`
(no claim depends on fractional values). -/
inductive Json where
  | null
  | bool (b : Bool)
  | num (n : Int)
  | str (s : String)
  | arr (elems : List Json)
  | obj (fields : List (String × Json))

mutual

/-- Structural equality of JSON values, Python `==` on decoded JSON. -/
def Json.beq : Json → Json → Bool
  | .null, .null => true
  | .bool a, .bool b => a == b
  | .num a, .num b => a == b
  | .str a, .str b => a == b
  | .arr a, .arr b => Json.beqList a b
  | .obj a, .obj b => Json.beqFields a b
  | _, _ => false

/-- Elementwise equality of JSON arrays. -/
def Json.beqList : List Json → List Json → Bool
  | [], [] => true
  | a :: as_, b :: bs => Json.beq a b && Json.beqList as_ bs
  | _, _ => false

/-- Entrywise equality of JSON object field lists. -/
def Json.beqFields : List (String × Json) → List (String × Json) → Bool
  | [], [] => true
  | (ka, va) :: as_, (kb, vb) :: bs => ka == kb && Json.beq va vb && Json.beqFields as_ bs
  | _, _ => false

end

instance : BEq Json := ⟨Json.beq⟩

/-- Python truthiness on a decoded JSON value: `None`, `False`, `0`, `""`,
`[]` and `{}` are falsy (`if not x:` takes the branch). -/
def Json.falsy : Json → Bool
  | .null => true
  | .bool b => !b
  | .num n => n == 0
  | .str s => s == ""
  | .arr elems => elems.isEmpty
  | .obj fields => fields.isEmpty

/-- First value bound to key `k` in a field list (Python dicts have unique
keys, so first-match lookup agrees with dict access). -/
def lookupField : List (String × Json) → String → Option Json
  | [], _ => none
  | (k', v) :: fields, k => if k' = k then some v else lookupField fields k

/-- `d[k]`-style lookup on a JSON object; `none` on non-objects or a
missing key. -/
def Json.lookup : Json → String → Option Json
  | .obj fields, k => lookupField fields k
  | _, _ => none

/-- Drop leading whitespace characters from a character list. -/
def dropWs : List Char → List Char
  | [] => []
  | c :: cs => if c.isWhitespace then dropWs cs else c :: cs

/-- Python `str.strip()`: remove leading and trailing whitespace. -/
def pyStrip (s : String) : String :=
  ⟨(dropWs ((dropWs s.data).reverse)).reverse⟩

/-- Whether the first character list occurs at the front of the second. -/
def charsAtFront : List Char → List Char → Bool
  | [], _ => true
  | _ :: _, [] => false
  | a :: as_, b :: bs => a == b && charsAtFront as_ bs

/-- Whether the first character list occurs contiguously anywhere in the
second (Python substring containment). -/
def charsWithin (needle : List Char) : List Char → Bool
  | [] => needle.isEmpty
  | b :: bs => charsAtFront needle (b :: bs) || charsWithin needle bs

/-- Python `k in x` for a string `k`: key test on dicts, membership on
lists, substring test on strings, `TypeError` otherwise. -/
def pyContains (j : Json) (k : String) : Except String Bool :=
  match j with
  | .obj fields => .ok (fields.any (fun kv => kv.1 = k))
  | .arr elems => .ok (elems.any (fun e => e == Json.str k))
  | .str s => .ok (charsWithin k.data s.data)
  | _ => .error "TypeError: argument is not iterable"

/-- Python `x[k]` for a string key `k`: value lookup on dicts (`KeyError`
when absent), `TypeError` on every other value. -/
def pyIndex (j : Json) (k : String) : Except String Json :=
  match j with
  | .obj fields =>
    match lookupField fields k with
    | some v => .ok v
    | none => .error "KeyError"
  | _ => .error "TypeError: value is not subscriptable"

mutual

/-- Python `repr` of a decoded JSON value (`None`/`True`/`False`,
single-quoted strings, `[...]` lists, `{...}` dicts). -/
def pyRepr : Json → String
  | .null => "None"
  | .bool true => "True"
  | .bool false => "False"
  | .num n => toString n
  | .str s => "'" ++ s ++ "'"
  | .arr elems => "[" ++ pyReprItems elems ++ "]"
  | .obj fields => "\x7b" ++ pyReprFields fields ++ "\x7d"

/-- Comma-separated `repr`s of list items. -/
def pyReprItems : List Json → String
  | [] => ""
  | [x] => pyRepr x
  | x :: xs => pyRepr x ++ ", " ++ pyReprItems xs

/-- Comma-separated `'key': repr(value)` entries of a dict. -/
def pyReprFields : List (String × Json) → String
  | [] => ""
  | [(k, v)] => "'" ++ k ++ "': " ++ pyRepr v
  | (k, v) :: fields => "'" ++ k ++ "': " ++ pyRepr v ++ ", " ++ pyReprFields fields

end

/-- Python `str` of a decoded JSON value: strings print bare at top level,
everything else as `repr` (this is what `str(tool_response["error"])`
produces). -/
def pyStr : Json → String
  | .str s => s
  | j => pyRepr j

/-- The dictionaries `get_instana_application` returns: either an error
dict `{"error": ..., "message": ..., [\x22application_id\x22: ...]}` (the
credentials dict carries no `application_id`, hence the `Option`), or a
success dict `{"id": ..., "data": ..., "source": ...}` whose `data` is
parsed JSON (`okJson`) or the raw text (`okText`). -/
inductive FetchResult where
  | errorResult (error : String) (message : String) (applicationId : Option String)
  | okJson (id : String) (data : Json) (source : String)
  | okText (id : String) (data : String) (source : String)

/-- The dict built by the `except Exception` handler of
`get_instana_application`: `{"error": "Failed to fetch application from
Instana MCP", "message": str(e), "application_id": ...}`. -/
def genericFailure (excMsg : String) (appId : String) : FetchResult :=
  .errorResult "Failed to fetch application from Instana MCP" excMsg (some appId)

/-- The "Application not found" dict of `get_instana_application`
(tools.py lines 178-182). -/
def notFoundResult (appId : String) : FetchResult :=
  .errorResult "Application not found" ("Could not find application with ID " ++ appId) (some appId)

/-- tools.py lines 140-182: dispatch on the tool-call response
`tool_response` (`none` when `send_and_receive` returned `None`).
Checks, in order: falsiness (`if not tool_response`), `"error" in
tool_response`, `"result" in tool_response and "content" in
tool_response["result"]`, `isinstance(content, list) and len(content) >
0`, then `content[0].get("text", "")` and `json.loads` on it
(`JSONDecodeError` yields the raw-text success).  An exception raised on
the way (`TypeError`, `AttributeError`, ...) escapes as `.error` for the
outer `except Exception` handler. -/
def dispatchToolResponse (parse : String → Option Json) (resp? : Option Json)
    (appId : String) : Except String FetchResult :=
  match resp? with
  | none => .ok (.errorResult "No response from tool call" "MCP server did not respond to tool call" (some appId))
  | some resp =>
    if resp.falsy then
      .ok (.errorResult "No response from tool call" "MCP server did not respond to tool call" (some appId))
    else
      match pyContains resp "error" with
      | .error m => .error m
      | .ok true =>
        match pyIndex resp "error" with
        | .error m => .error m
        | .ok errVal => .ok (.errorResult "MCP tool call failed" (pyStr errVal) (some appId))
      | .ok false =>
        match pyContains resp "result" with
        | .error m => .error m
        | .ok false => .ok (notFoundResult appId)
        | .ok true =>
          match pyIndex resp "result" with
          | .error m => .error m
          | .ok r =>
            match pyContains r "content" with
            | .error m => .error m
            | .ok false => .ok (notFoundResult appId)
            | .ok true =>
              match pyIndex r "content" with
              | .error m => .error m
              | .ok content =>
                match content with
                | .arr (c0 :: _) =>
                  match c0 with
                  | .obj gs =>
                    match (lookupField gs "text").getD (Json.str "") with
                    | .str s =>
                      match parse s with
                      | some v => .ok (.okJson appId v "mcp-instana")
                      | none => .ok (.okText appId s "mcp-instana")
                    | _ => .error "TypeError: the JSON object must be str, bytes or bytearray"
                  | _ => .error "AttributeError: object has no attribute get"
                | _ => .ok (notFoundResult appId)

/-- The dict `get_instana_application` hands back for a given tool-call
response: the dispatch of tools.py lines 140-182 with an escaping
exception converted by the outer `except Exception` handler into its
"Failed to fetch application from Instana MCP" dict. -/
def handleToolResponse (parse : String → Option Json) (resp? : Option Json)
    (appId : String) : FetchResult :=
  match dispatchToolResponse parse resp? appId with
  | .ok r => r
  | .error m => genericFailure m appId

/-- The `"error"` key of a returned dict, when the result is an error dict. -/
def FetchResult.errorKey : FetchResult → Option String
  | .errorResult e _ _ => some e
  | _ => none

/-- The application id a returned dict carries: the `"application_id"` key
of an error dict, or the `"id"` key of a success dict. -/
def FetchResult.appKey : FetchResult → Option String
  | .errorResult _ _ a => a
  | .okJson i _ _ => some i
  | .okText i _ _ => some i

/-- Whether a returned dict is an error dict (has an `"error"` key). -/
def FetchResult.isError : FetchResult → Bool
  | .errorResult _ _ _ => true
  | _ => false

/-- Python truthiness of `send_and_receive`'s result: `None` and falsy
JSON values fail the `if not response:` test. -/
def truthy : Option Json → Bool
  | none => false
  | some j => !j.falsy

/-- Observable I/O events of one execution: process spawn, a write to the
child's stdin, a blocking read of its stdout, `terminate()` on a pid. -/
inductive Ev where
  | spawn (pid : Nat)
  | write
  | read
  | term (pid : Nat)
  deriving DecidableEq

/-- Outcome of one stream exchange fixed by the environment: whether the
write/flush to the child's stdin succeeds, and the line `readline()`
returns (`""` both for an immediate end-of-stream and an empty line —
Python's falsy cases). -/
structure Exch where
  writeOk : Bool
  line : String

/-- Pool of spawned processes: pids still running, and the pid the next
spawn gets. -/
structure World where
  running : List Nat
  nextPid : Nat
  deriving DecidableEq

/-- The mutable fields of the Python `MCPClient` object: `self.process`
(a pid when a subprocess handle is held) and `self._initialized`. -/
structure MCPClient where
  process : Option Nat
  initialized : Bool
  deriving DecidableEq

/-- mcp_client.py `MCPClient._send_and_receive` (lines 36-61): bail out
with `None` when no process handle is held; otherwise write the request
line (an exception is caught and yields `None`), read one line, return
`None` on a falsy line, else `json.loads` of the stripped line — a decode
exception is caught and yields `None`. -/
def MCPClient.sendAndReceive (parse : String → Option Json) (ex : Exch)
    (c : MCPClient) : Option Json × List Ev :=
  match c.process with
  | none => (none, [])
  | some _ =>
    if ex.writeOk then
      if ex.line = "" then (none, [.write, .read])
      else (parse (pyStrip ex.line), [.write, .read])
    else (none, [.write])

/-- mcp_client.py `MCPClient.disconnect` (lines 156-166): when a process
handle is held, `terminate()` it, `wait(timeout=2)` (exceptions
swallowed), and in the `finally` clear `self.process` and
`self._initialized`.  Without a handle the body does nothing. -/
def MCPClient.disconnect (c : MCPClient) (w : World) : MCPClient × World × List Ev :=
  match c.process with
  | none => (c, w, [])
  | some pid => (⟨none, false⟩, ⟨w.running.erase pid, w.nextPid⟩, [.term pid])

/-- The environment of one `MCPClient.connect` execution: whether `Popen`
succeeds, the initialize exchange's outcome, whether the `initialized`
notification write succeeds, exception texts, and the `json.loads`
decoder. -/
structure COracle where
  spawnOk : Bool
  spawnErrMsg : String
  initEx : Exch
  notifWriteOk : Bool
  notifErrMsg : String
  parse : String → Option Json

/-- mcp_client.py `MCPClient.connect` (lines 63-128): return immediately
when already initialized; spawn the server (a `Popen` exception reaches
the `except`, which disconnects and reports "Failed to connect...");
run the initialize exchange; a falsy response disconnects and reports
"No initialization response from MCP server"; then write the
`notifications/initialized` line (an exception again reaches the
`except`); finally set `self._initialized` and return success. -/
def MCPClient.connect (o : COracle) (c : MCPClient) (w : World) :
    (Bool × Option String) × MCPClient × World × List Ev :=
  if c.initialized then ((true, none), c, w, [])
  else if o.spawnOk then
    let pid := w.nextPid
    let c1 : MCPClient := ⟨some pid, c.initialized⟩
    let w1 : World := ⟨pid :: w.running, w.nextPid + 1⟩
    let res := MCPClient.sendAndReceive o.parse o.initEx c1
    if truthy res.1 then
      if o.notifWriteOk then
        ((true, none), ⟨some pid, true⟩, w1, .spawn pid :: res.2 ++ [.write])
      else
        let d := MCPClient.disconnect c1 w1
        ((false, some ("Failed to connect to MCP server: " ++ o.notifErrMsg)),
          d.1, d.2.1, .spawn pid :: res.2 ++ [.write] ++ d.2.2)
    else
      let d := MCPClient.disconnect c1 w1
      ((false, some "No initialization response from MCP server"),
        d.1, d.2.1, .spawn pid :: res.2 ++ d.2.2)
  else
    let d := MCPClient.disconnect c w
    ((false, some ("Failed to connect to MCP server: " ++ o.spawnErrMsg)),
      d.1, d.2.1, d.2.2)

/-- mcp_client.py `MCPClient.call_tool` (lines 130-154): `None` without
any I/O when `self._initialized` is false, otherwise one
`_send_and_receive` exchange of the `tools/call` request. -/
def MCPClient.call_tool (parse : String → Option Json) (ex : Exch)
    (c : MCPClient) : Option Json × List Ev :=
  if c.initialized then MCPClient.sendAndReceive parse ex c
  else (none, [])

/-- Python truthiness of an optional environment-variable string:
`os.getenv` yields `None` when unset, and `""` is falsy too. -/
def optFalsy : Option String → Bool
  | none => true
  | some s => s == ""

/-- The environment of one `get_instana_application` execution: the two
credential variables, whether `Popen` and the stream writes succeed, the
lines `readline()` returns, whether the cleanup `wait(timeout=2)` raises
`TimeoutExpired`, and the `json.loads` decoder. -/
structure ToolOracle where
  baseUrl : Option String
  apiToken : Option String
  spawnOk : Bool
  spawnErrMsg : String
  initEx : Exch
  notifWriteOk : Bool
  toolEx : Exch
  waitTimesOut : Bool
  parse : String → Option Json

/-- tools.py nested `send_and_receive` (lines 66-83): unlike the client
module's variant it has no `try`, so a failed write or a `json.loads`
failure raises out of it (modelled as `.error`); a falsy `readline()`
result falls through to `return None`. -/
def rawExchange (parse : String → Option Json) (ex : Exch) :
    Except String (Option Json) × List Ev :=
  if ex.writeOk then
    if ex.line = "" then (.ok none, [.write, .read])
    else
      match parse (pyStrip ex.line) with
      | some j => (.ok (some j), [.write, .read])
      | none => (.error "JSONDecodeError: Expecting value", [.write, .read])
  else (.error "BrokenPipeError", [.write])

/-- tools.py `get_instana_application` (lines 13-199), with the spawned
process given pid 0: credentials check; spawn (a `Popen` exception is
caught with `process` still `None`, so no terminate happens); initialize
exchange (an exception is caught and the process terminated); falsy
initialize response → terminate and the "MCP initialization failed"
dict; `initialized` notification write; `tools/call` exchange; then the
cleanup `terminate(); wait(timeout=2)` — a `TimeoutExpired` from the
wait is caught by the dedicated handler, which terminates again and
returns the "MCP server timeout" dict; otherwise the response dispatch
`handleToolResponse` produces the returned dict. -/
def get_instana_application (o : ToolOracle) (appId : String) : FetchResult × List Ev :=
  if optFalsy o.baseUrl || optFalsy o.apiToken then
    (.errorResult "Instana credentials not configured"
      "Set INSTANA_BASE_URL and INSTANA_API_TOKEN environment variables" none, [])
  else if o.spawnOk then
    match rawExchange o.parse o.initEx with
    | (.error m, evs) => (genericFailure m appId, .spawn 0 :: evs ++ [.term 0])
    | (.ok initResp, evs) =>
      if truthy initResp then
        if o.notifWriteOk then
          match rawExchange o.parse o.toolEx with
          | (.error m, evs2) =>
            (genericFailure m appId, .spawn 0 :: evs ++ [.write] ++ evs2 ++ [.term 0])
          | (.ok toolResp, evs2) =>
            if o.waitTimesOut then
              (.errorResult "MCP server timeout"
                "MCP server did not respond within timeout period" (some appId),
                .spawn 0 :: evs ++ [.write] ++ evs2 ++ [.term 0, .term 0])
            else
              match dispatchToolResponse o.parse toolResp appId with
              | .ok r => (r, .spawn 0 :: evs ++ [.write] ++ evs2 ++ [.term 0])
              | .error m =>
                (genericFailure m appId,
                  .spawn 0 :: evs ++ [.write] ++ evs2 ++ [.term 0, .term 0])
        else
          (genericFailure "BrokenPipeError" appId, .spawn 0 :: evs ++ [.write, .term 0])
      else
        (.errorResult "MCP initialization failed"
          "No initialization response from MCP server" (some appId),
          .spawn 0 :: evs ++ [.term 0])
  else
    (genericFailure o.spawnErrMsg appId, [])

/-- Stand-in for the external `json.loads` at inputs that are not valid
JSON: the concrete lines the witnesses below feed it (`""`, `"junk"`,
`"plain text answer"`) are all rejected by `json.loads`, so the decoder
restricted to them is the constant `none`. -/
def parseStub : String → Option Json := fun _ => none

/-- Stand-in for the external `json.loads` at the inputs a concrete
demonstration execution feeds it: it decodes the single line
`\x7b"ok": 1\x7d` (valid JSON for the object with field `ok = 1`) and
rejects everything else. -/
def parseDemo : String → Option Json := fun s =>
  if s = "\x7b\"ok\": 1\x7d" then some (Json.obj [("ok", Json.num 1)]) else none

/-- A field list whose lookup finds a key makes the Python `in` test true. -/
theorem lookupField_any_true {fs : List (String × Json)} {k : String} {v : Json}
    (h : lookupField fs k = some v) : fs.any (fun kv => kv.1 = k) = true := by
  induction fs with
  | nil => simp [lookupField] at h
  | cons kv fs ih =>
    obtain ⟨k', v'⟩ := kv
    rw [lookupField] at h
    by_cases hk : k' = k
    · simp [hk]
    · rw [if_neg hk] at h
      simp [List.any_cons, ih h]

/-- A field list whose lookup misses a key makes the Python `in` test false. -/
theorem lookupField_any_false {fs : List (String × Json)} {k : String}
    (h : lookupField fs k = none) : fs.any (fun kv => kv.1 = k) = false := by
  induction fs with
  | nil => simp
  | cons kv fs ih =>
    obtain ⟨k', v'⟩ := kv
    rw [lookupField] at h
    by_cases hk : k' = k
    · rw [if_pos hk] at h; exact absurd h (by simp)
    · rw [if_neg hk] at h
      simp [List.any_cons, hk, ih h]

/-- A field list with a successful lookup is non-empty. -/
theorem lookupField_ne_nil {fs : List (String × Json)} {k : String} {v : Json}
    (h : lookupField fs k = some v) : fs ≠ [] := by
  intro h0; subst h0; rw [lookupField] at h; exact absurd h (by simp)

/-- Subscripting a JSON object succeeds on a present key. -/
theorem pyIndex_obj {fs : List (String × Json)} {k : String} {v : Json}
    (h : lookupField fs k = some v) : pyIndex (Json.obj fs) k = .ok v := by
  rw [pyIndex, h]

/-- C1: for every well-formed success response — one with no `error`
field whose `result.content` is a non-empty sequence whose first element
has a (string) `text` field — `get_instana_application`'s response
dispatch returns the success dict whose payload is the JSON-decoded
value of the text when it parses, and the raw text string otherwise; an
unparsable text is a success, never a failure. -/
theorem c1_wellformed_success_payload (parse : String → Option Json)
    (fs rfs gs : List (String × Json)) (rest : List Json) (s appId : String)
    (herr : lookupField fs "error" = none)
    (hres : lookupField fs "result" = some (Json.obj rfs))
    (hcon : lookupField rfs "content" = some (Json.arr (Json.obj gs :: rest)))
    (htext : lookupField gs "text" = some (Json.str s)) :
    handleToolResponse parse (some (Json.obj fs)) appId =
      match parse s with
      | some v => FetchResult.okJson appId v "mcp-instana"
      | none => FetchResult.okText appId s "mcp-instana" := by
  have hempty : fs.isEmpty = false := by
    cases fs with
    | nil => exact absurd rfl (lookupField_ne_nil hres)
    | cons kv fs => rfl
  rw [handleToolResponse, dispatchToolResponse]
  simp only [Json.falsy, hempty, Bool.false_eq_true, if_false, pyContains,
    lookupField_any_false herr, lookupField_any_true hres,
    pyIndex_obj hres, lookupField_any_true hcon, pyIndex_obj hcon, htext,
    Option.getD_some]
  cases parse s <;> rfl

/-- Witness for C1: the spec's scenario response
`{"result":{"content":[{"text":"plain text answer"}]}}`, whose text is
not valid JSON, yields the raw-text success dict. -/
theorem c1_witness :
    handleToolResponse parseStub
      (some (Json.obj [("result", Json.obj [("content",
        Json.arr [Json.obj [("text", Json.str "plain text answer")]])])])) "app-1" =
      FetchResult.okText "app-1" "plain text answer" "mcp-instana" :=
  c1_wellformed_success_payload parseStub _ _ _ _ _ _ rfl rfl rfl rfl

/-- Counterexample to C2: the response
`{"result":{"content":[{}]}}` lacks an `error` field and is not a
well-formed success shape (its first content element has no `text`
field), yet the dispatch does not return the "Application not found"
failure — `content[0].get("text", "")` defaults to `""`, `json.loads`
rejects `""`, and the raw-text success dict with payload `""` is
returned. -/
theorem c2_counterexample :
    (Json.obj [("result", Json.obj [("content", Json.arr [Json.obj []])])]).lookup "error" = none ∧
    handleToolResponse parseStub
      (some (Json.obj [("result", Json.obj [("content", Json.arr [Json.obj []])])])) "app-9" =
      FetchResult.okText "app-9" "" "mcp-instana" ∧
    (handleToolResponse parseStub
      (some (Json.obj [("result", Json.obj [("content", Json.arr [Json.obj []])])])) "app-9").isError
      = false :=
  ⟨rfl, rfl, rfl⟩

/-- C2 (amended): for every truthy JSON-object response that lacks an
`error` field and whose shape fails before a first content element is
inspected — missing `result`, `result` an object without `content`,
`content` not a sequence, or an empty content sequence — the dispatch
returns the `Application not found` failure dict, and the absence of
those fields never raises.  (As the counterexample shows, a first
content element without a `text` field instead yields a success with
payload `""`; and a falsy response such as `{}` is reported as "No
response from tool call".) -/
theorem c2_malformed_notfound (parse : String → Option Json)
    (fs : List (String × Json)) (appId : String)
    (hne : fs ≠ [])
    (herr : lookupField fs "error" = none)
    (hshape :
      lookupField fs "result" = none ∨
      (∃ rfs, lookupField fs "result" = some (Json.obj rfs) ∧
        lookupField rfs "content" = none) ∨
      (∃ rfs c, lookupField fs "result" = some (Json.obj rfs) ∧
        lookupField rfs "content" = some c ∧ ∀ elems, c ≠ Json.arr elems) ∨
      (∃ rfs, lookupField fs "result" = some (Json.obj rfs) ∧
        lookupField rfs "content" = some (Json.arr []))) :
    handleToolResponse parse (some (Json.obj fs)) appId = notFoundResult appId := by
  have hempty : fs.isEmpty = false := by
    cases fs with
    | nil => exact absurd rfl hne
    | cons kv fs => rfl
  rw [handleToolResponse, dispatchToolResponse]
  simp only [Json.falsy, hempty, Bool.false_eq_true, if_false, pyContains,
    lookupField_any_false herr]
  rcases hshape with h1 | ⟨rfs, h2, h2c⟩ | ⟨rfs, c, h3, h3c, h3a⟩ | ⟨rfs, h4, h4c⟩
  · simp only [lookupField_any_false h1]
  · simp only [lookupField_any_true h2, pyIndex_obj h2, pyContains,
      lookupField_any_false h2c]
  · simp only [lookupField_any_true h3, pyIndex_obj h3, pyContains,
      lookupField_any_true h3c, pyIndex_obj h3c]
    cases c with
    | arr elems =>
      cases elems with
      | nil => rfl
      | cons c0 cs => exact absurd rfl (h3a (c0 :: cs))
    | null => rfl
    | bool b => rfl
    | num n => rfl
    | str s => rfl
    | obj gs => rfl
  · simp only [lookupField_any_true h4, pyIndex_obj h4, pyContains,
      lookupField_any_true h4c, pyIndex_obj h4c]

/-- Witness for C2 (amended): the response `{"result":{}}` — `result`
present but without `content` — yields the not-found dict. -/
theorem c2_witness :
    handleToolResponse parseStub (some (Json.obj [("result", Json.obj [("x", Json.null)])])) "app-2"
      = notFoundResult "app-2" :=
  c2_malformed_notfound parseStub _ "app-2" (by simp) rfl
    (Or.inr (Or.inl ⟨[("x", Json.null)], rfl, rfl⟩))

/-- C3: on a client holding no process handle (the state in which
`connect` runs in the lifecycle), every `connect()` that returns failure
leaves `_initialized` false, no process handle held and the set of
running processes exactly as before (the spawned process, if any, has
been torn down); every `connect()` that returns success leaves
`_initialized` true (Ready). -/
theorem c3_connect_cleanup (o : COracle) (c : MCPClient) (w : World)
    (hp : c.process = none) :
    ((MCPClient.connect o c w).1.1 = false →
      (MCPClient.connect o c w).2.1.initialized = false ∧
      (MCPClient.connect o c w).2.1.process = none ∧
      (MCPClient.connect o c w).2.2.1.running = w.running) ∧
    ((MCPClient.connect o c w).1.1 = true →
      (MCPClient.connect o c w).2.1.initialized = true) := by
  cases hi : c.initialized with
  | true => simp [MCPClient.connect, hi]
  | false =>
    cases hs : o.spawnOk with
    | false => simp [MCPClient.connect, hi, hs, MCPClient.disconnect, hp]
    | true =>
      simp only [MCPClient.connect, hi, hs, Bool.false_eq_true, if_false, if_true]
      cases htr : truthy (MCPClient.sendAndReceive o.parse o.initEx ⟨some w.nextPid, false⟩).1 with
      | false => simp [htr, MCPClient.disconnect]
      | true =>
        cases hn : o.notifWriteOk with
        | false => simp [htr, hn, MCPClient.disconnect]
        | true => simp [htr, hn]

/-- Witness for C3: a fresh client whose spawn fails — the failure
branch of the theorem applies, the state stays non-Ready and no process
is left running. -/
theorem c3_witness :
    ((MCPClient.connect ⟨false, "boom", ⟨true, ""⟩, true, "", parseStub⟩ ⟨none, false⟩ ⟨[], 0⟩).1.1 = false →
      (MCPClient.connect ⟨false, "boom", ⟨true, ""⟩, true, "", parseStub⟩ ⟨none, false⟩ ⟨[], 0⟩).2.1.initialized = false ∧
      (MCPClient.connect ⟨false, "boom", ⟨true, ""⟩, true, "", parseStub⟩ ⟨none, false⟩ ⟨[], 0⟩).2.1.process = none ∧
      (MCPClient.connect ⟨false, "boom", ⟨true, ""⟩, true, "", parseStub⟩ ⟨none, false⟩ ⟨[], 0⟩).2.2.1.running = ([] : List Nat)) ∧
    ((MCPClient.connect ⟨false, "boom", ⟨true, ""⟩, true, "", parseStub⟩ ⟨none, false⟩ ⟨[], 0⟩).1.1 = true →
      (MCPClient.connect ⟨false, "boom", ⟨true, ""⟩, true, "", parseStub⟩ ⟨none, false⟩ ⟨[], 0⟩).2.1.initialized = true) :=
  c3_connect_cleanup ⟨false, "boom", ⟨true, ""⟩, true, "", parseStub⟩ ⟨none, false⟩ ⟨[], 0⟩ rfl

/-- Counterexample to C5: `call_tool` on a not-initialized client returns
`None` — exactly the value a ready client gets back when its exchange
fails (here: the response line `junk` is not decodable JSON), so the
not-ready outcome is not a distinguished error value. -/
theorem c5_counterexample :
    MCPClient.call_tool parseStub ⟨true, "junk"⟩ ⟨none, false⟩ = (none, []) ∧
    MCPClient.call_tool parseStub ⟨true, "junk"⟩ ⟨some 0, true⟩ = (none, [Ev.write, Ev.read]) ∧
    (MCPClient.call_tool parseStub ⟨true, "junk"⟩ ⟨none, false⟩).1 =
      (MCPClient.call_tool parseStub ⟨true, "junk"⟩ ⟨some 0, true⟩).1 :=
  ⟨rfl, rfl, rfl⟩

/-- C5 (amended): on every client on which `connect()` has not completed,
`call_tool` fails fast returning `None` and performs no I/O at all — but
the `None` it returns is the same value a failed exchange produces, so
the not-ready failure is not distinguishable from a no-response failure
by the return value. -/
theorem c5_notready_no_io (parse : String → Option Json) (ex : Exch) (c : MCPClient)
    (h : c.initialized = false) :
    MCPClient.call_tool parse ex c = (none, []) := by
  simp [MCPClient.call_tool, h]

/-- Witness for C5 (amended): a fresh, never-connected client. -/
theorem c5_witness :
    MCPClient.call_tool parseStub ⟨true, "junk"⟩ ⟨some 3, false⟩ = (none, []) :=
  c5_notready_no_io parseStub ⟨true, "junk"⟩ ⟨some 3, false⟩ rfl

/-- C6: `disconnect()` is idempotent — on any client state satisfying
the class invariant (a ready client holds a process handle), a second
`disconnect` changes nothing and performs no further teardown I/O, no
branch of either call raises, and the state after the calls is Closed
(no process handle, not initialized). -/
theorem c6_disconnect_idempotent (c : MCPClient) (w : World)
    (h : c.initialized = true → c.process ≠ none) :
    MCPClient.disconnect (MCPClient.disconnect c w).1 (MCPClient.disconnect c w).2.1 =
      ((MCPClient.disconnect c w).1, (MCPClient.disconnect c w).2.1, ([] : List Ev)) ∧
    (MCPClient.disconnect c w).1.process = none ∧
    (MCPClient.disconnect c w).1.initialized = false := by
  cases hp : c.process with
  | none =>
    have hi : c.initialized = false := by
      cases hini : c.initialized
      · rfl
      · exact absurd hp (h hini)
    refine ⟨?_, ?_, ?_⟩ <;> simp [MCPClient.disconnect, hp, hi]
  | some pid => refine ⟨?_, ?_, ?_⟩ <;> simp [MCPClient.disconnect, hp]

/-- Witness for C6: a connected client with a live process. -/
theorem c6_witness :
    MCPClient.disconnect (MCPClient.disconnect ⟨some 5, true⟩ ⟨[5], 6⟩).1
        (MCPClient.disconnect ⟨some 5, true⟩ ⟨[5], 6⟩).2.1 =
      ((MCPClient.disconnect ⟨some 5, true⟩ ⟨[5], 6⟩).1,
        (MCPClient.disconnect ⟨some 5, true⟩ ⟨[5], 6⟩).2.1, ([] : List Ev)) ∧
    (MCPClient.disconnect ⟨some 5, true⟩ ⟨[5], 6⟩).1.process = none ∧
    (MCPClient.disconnect ⟨some 5, true⟩ ⟨[5], 6⟩).1.initialized = false :=
  c6_disconnect_idempotent ⟨some 5, true⟩ ⟨[5], 6⟩ (by decide)

/-- C7: when the handshake receives no initialization response (the
exchange yields `None`), `connect()` on a fresh client returns failure
with exactly the message "No initialization response from MCP server",
the spawned process has been terminated before `connect()` returns (a
`term` event is in the trace and the running set is restored), and no
process handle is retained. -/
theorem c7_no_init_response (o : COracle) (c : MCPClient) (w : World)
    (hi : c.initialized = false)
    (hs : o.spawnOk = true)
    (hresp : (MCPClient.sendAndReceive o.parse o.initEx ⟨some w.nextPid, false⟩).1 = none) :
    (MCPClient.connect o c w).1 = (false, some "No initialization response from MCP server") ∧
    (MCPClient.connect o c w).2.1.process = none ∧
    (MCPClient.connect o c w).2.2.1.running = w.running ∧
    Ev.term w.nextPid ∈ (MCPClient.connect o c w).2.2.2 := by
  simp only [MCPClient.connect, hi, hs, Bool.false_eq_true, if_false, if_true]
  simp [hresp, truthy, MCPClient.disconnect]

/-- Witness for C7: a server that produces no output (the read returns
end-of-stream). -/
theorem c7_witness :
    (MCPClient.connect ⟨true, "", ⟨true, ""⟩, true, "", parseStub⟩ ⟨none, false⟩ ⟨[], 0⟩).1 =
      (false, some "No initialization response from MCP server") ∧
    (MCPClient.connect ⟨true, "", ⟨true, ""⟩, true, "", parseStub⟩ ⟨none, false⟩ ⟨[], 0⟩).2.1.process = none ∧
    (MCPClient.connect ⟨true, "", ⟨true, ""⟩, true, "", parseStub⟩ ⟨none, false⟩ ⟨[], 0⟩).2.2.1.running = ([] : List Nat) ∧
    Ev.term 0 ∈ (MCPClient.connect ⟨true, "", ⟨true, ""⟩, true, "", parseStub⟩ ⟨none, false⟩ ⟨[], 0⟩).2.2.2 :=
  c7_no_init_response ⟨true, "", ⟨true, ""⟩, true, "", parseStub⟩ ⟨none, false⟩ ⟨[], 0⟩ rfl rfl rfl

/-- C8: the line channel returns `None` (absence of a response) whenever
the read yields an empty line or a closed stream (`readline()` gives
`""`), or the line fails to decode as JSON — the decode exception is
caught inside `_send_and_receive` and never propagates. -/
theorem c8_receive_none (parse : String → Option Json) (ex : Exch) (c : MCPClient)
    (h : ex.line = "" ∨ parse (pyStrip ex.line) = none) :
    (MCPClient.sendAndReceive parse ex c).1 = none := by
  rw [MCPClient.sendAndReceive]
  cases c.process with
  | none => rfl
  | some pid =>
    cases hw : ex.writeOk with
    | false => simp
    | true =>
      rcases h with h | h
      · simp [h]
      · by_cases hl : ex.line = "" <;> simp [hl, h]

/-- Witness for C8: a response line that is not decodable JSON yields
`None` rather than an exception. -/
theorem c8_witness :
    (MCPClient.sendAndReceive parseStub ⟨true, "junk"⟩ ⟨some 0, true⟩).1 = none :=
  c8_receive_none parseStub ⟨true, "junk"⟩ ⟨some 0, true⟩ (Or.inr rfl)

/-- C10: `connect()` on an already-Ready client returns success
immediately, spawns nothing, performs no I/O (empty event trace) and
changes neither the client state nor the process world. -/
theorem c10_connect_ready_noop (o : COracle) (c : MCPClient) (w : World)
    (h : c.initialized = true) :
    MCPClient.connect o c w = ((true, none), c, w, []) := by
  simp [MCPClient.connect, h]

/-- Witness for C10: a connected client; a second `connect` is a pure
no-op success. -/
theorem c10_witness :
    MCPClient.connect ⟨true, "", ⟨true, ""⟩, true, "", parseStub⟩ ⟨some 1, true⟩ ⟨[1], 2⟩ =
      ((true, none), ⟨some 1, true⟩, ⟨[1], 2⟩, []) :=
  c10_connect_ready_noop ⟨true, "", ⟨true, ""⟩, true, "", parseStub⟩ ⟨some 1, true⟩ ⟨[1], 2⟩ rfl

/-- Every dict the response dispatch returns without raising carries the
requested application id (in `application_id` for failures, `id` for
successes). -/
theorem dispatchToolResponse_ok_appKey (parse : String → Option Json)
    (resp? : Option Json) (appId : String) (r : FetchResult)
    (h : dispatchToolResponse parse resp? appId = .ok r) : r.appKey = some appId := by
  unfold dispatchToolResponse at h
  repeat' split at h
  all_goals first
    | (injection h with h2; subst h2; rfl)
    | simp_all [FetchResult.appKey, notFoundResult]

/-- Counterexample to C9: with the credentials unset,
`get_instana_application` returns a failure dict that carries no
`application_id` at all and whose message names the environment
variables, not the failing application id. -/
theorem c9_counterexample :
    (get_instana_application ⟨none, none, true, "", ⟨true, ""⟩, true, ⟨true, ""⟩, false, parseStub⟩ "app-42").1 =
      FetchResult.errorResult "Instana credentials not configured"
        "Set INSTANA_BASE_URL and INSTANA_API_TOKEN environment variables" none ∧
    ((get_instana_application ⟨none, none, true, "", ⟨true, ""⟩, true, ⟨true, ""⟩, false, parseStub⟩ "app-42").1).appKey = none ∧
    ((get_instana_application ⟨none, none, true, "", ⟨true, ""⟩, true, ⟨true, ""⟩, false, parseStub⟩ "app-42").1).isError = true :=
  ⟨rfl, rfl, rfl⟩

/-- C9 (amended): once the credentials check passes, every result
`get_instana_application` produces — every failure dict (spawn failure,
no initialization response, no tool response, remote tool error,
not-found, timeout, any exception) and every success dict — carries the
failing application id; only the credentials-missing failure identifies
the missing environment variables instead of an application id. -/
theorem c9_failure_identifies_app (o : ToolOracle) (appId : String)
    (hb : optFalsy o.baseUrl = false) (ht : optFalsy o.apiToken = false) :
    ((get_instana_application o appId).1).appKey = some appId := by
  rw [get_instana_application]
  simp only [hb, ht, Bool.or_self, Bool.false_eq_true, if_false]
  repeat' split
  all_goals
    first
      | (simp [genericFailure, FetchResult.appKey, notFoundResult]; done)
      | (rename_i r heq; exact dispatchToolResponse_ok_appKey _ _ _ r heq)

/-- Witness for C9 (amended): a run with credentials present whose
server produces no output still reports the failing application id. -/
theorem c9_witness :
    ((get_instana_application ⟨some "https://unit", some "tok", true, "", ⟨true, ""⟩, true, ⟨true, ""⟩, false, parseStub⟩ "app-42").1).appKey = some "app-42" :=
  c9_failure_identifies_app ⟨some "https://unit", some "tok", true, "", ⟨true, ""⟩, true, ⟨true, ""⟩, false, parseStub⟩ "app-42" rfl rfl

/-- Counterexample to C4: a run in which no response line ever arrives
for the tool call (the stream closes without a line) fails with the
"No response from tool call" dict, not with a timeout failure — the
blocking `readline()` has no timeout, so the TimeoutError the claim
promises is never produced for a silent server. -/
theorem c4_counterexample :
    (get_instana_application ⟨some "u", some "t", true, "", ⟨true, "\x7b\"ok\": 1\x7d"⟩, true, ⟨true, ""⟩, false, parseDemo⟩ "app-7").1 =
      FetchResult.errorResult "No response from tool call" "MCP server did not respond to tool call" (some "app-7") ∧
    "No response from tool call" ≠ "MCP server timeout" :=
  ⟨rfl, by decide⟩

/-- C4 (amended): the blocking read has no timeout of its own; in a run
that reaches the tool call, the "MCP server timeout" failure arises
exactly when the post-exchange `process.wait(timeout=2)` raises
`TimeoutExpired` (and the process is then terminated), while a read that
yields no line (stream closed) produces the "No response from tool call"
failure instead of a timeout. -/
theorem c4_timeout_only_from_wait (o : ToolOracle) (appId : String) (j : Json)
    (hb : optFalsy o.baseUrl = false) (ht : optFalsy o.apiToken = false)
    (hs : o.spawnOk = true)
    (hiw : o.initEx.writeOk = true) (hil : ¬o.initEx.line = "")
    (hip : o.parse (pyStrip o.initEx.line) = some j) (hjt : j.falsy = false)
    (hnw : o.notifWriteOk = true)
    (htw : o.toolEx.writeOk = true) (htl : o.toolEx.line = "") :
    (o.waitTimesOut = true →
      (get_instana_application o appId).1 =
        FetchResult.errorResult "MCP server timeout"
          "MCP server did not respond within timeout period" (some appId) ∧
      Ev.term 0 ∈ (get_instana_application o appId).2) ∧
    (o.waitTimesOut = false →
      (get_instana_application o appId).1 =
        FetchResult.errorResult "No response from tool call"
          "MCP server did not respond to tool call" (some appId)) := by
  have hre : rawExchange o.parse o.initEx = (.ok (some j), [.write, .read]) := by
    rw [rawExchange]
    simp [hiw, hil, hip]
  have hte : rawExchange o.parse o.toolEx = (.ok none, [.write, .read]) := by
    rw [rawExchange]
    simp [htw, htl]
  rw [get_instana_application]
  simp only [hb, ht, Bool.or_self, Bool.false_eq_true, if_false, hs, if_true,
    hre, hte, truthy, hjt, Bool.not_false, hnw]
  constructor
  · intro hwt
    simp [hwt, List.mem_append]
  · intro hwt
    simp [hwt, dispatchToolResponse]

/-- Witness for C4 (amended): a run whose cleanup `wait(timeout=2)`
expires produces the timeout dict and a termination of the process. -/
theorem c4_witness :
    ((⟨some "u", some "t", true, "", ⟨true, "\x7b\"ok\": 1\x7d"⟩, true, ⟨true, ""⟩, true, parseDemo⟩ : ToolOracle).waitTimesOut = true →
      (get_instana_application ⟨some "u", some "t", true, "", ⟨true, "\x7b\"ok\": 1\x7d"⟩, true, ⟨true, ""⟩, true, parseDemo⟩ "app-7").1 =
        FetchResult.errorResult "MCP server timeout"
          "MCP server did not respond within timeout period" (some "app-7") ∧
      Ev.term 0 ∈ (get_instana_application ⟨some "u", some "t", true, "", ⟨true, "\x7b\"ok\": 1\x7d"⟩, true, ⟨true, ""⟩, true, parseDemo⟩ "app-7").2) ∧
    ((⟨some "u", some "t", true, "", ⟨true, "\x7b\"ok\": 1\x7d"⟩, true, ⟨true, ""⟩, true, parseDemo⟩ : ToolOracle).waitTimesOut = false →
      (get_instana_application ⟨some "u", some "t", true, "", ⟨true, "\x7b\"ok\": 1\x7d"⟩, true, ⟨true, ""⟩, true, parseDemo⟩ "app-7").1 =
        FetchResult.errorResult "No response from tool call"
          "MCP server did not respond to tool call" (some "app-7")) :=
  c4_timeout_only_from_wait ⟨some "u", some "t", true, "", ⟨true, "\x7b\"ok\": 1\x7d"⟩, true, ⟨true, ""⟩, true, parseDemo⟩
    "app-7" (Json.obj [("ok", Json.num 1)]) rfl rfl rfl rfl (by decide) rfl rfl rfl rfl rfl
